import Mathlib

/-!
Verification of the display-pipeline core of the Ingenic JZ47xx KMS driver
(src/drivers/gpu/drm/ingenic/ingenic-drm.c).

The C code is embedded shallowly: register side effects become explicit action
lists, results supplied by external collaborators (clock rounding, the generic
plane-geometry helper, the vertical-blank reference counter) become inputs, and
C arithmetic on 32-bit unsigned integers is Nat arithmetic reduced mod 2^32.
Plane naming follows the source: the f1 plane is registered with
DRM_PLANE_TYPE_PRIMARY (line 835) and the f0 plane with DRM_PLANE_TYPE_OVERLAY
(line 859); the optional IPU plane is an externally registered third plane.
-/

/-- 2^32, the modulus of C `unsigned int` arithmetic. -/
def M32 : Nat := 4294967296

/-- Truncation of a value to 32 bits, as happens when storing into a C
`unsigned int` or a hardware register. -/
def w32 (v : Nat) : Nat := v % M32

/-- 32-bit unsigned addition. -/
def add32 (a b : Nat) : Nat := (a + b) % M32

/-- 32-bit unsigned subtraction, wrapping around like C unsigned arithmetic. -/
def sub32 (a b : Nat) : Nat := (a % M32 + (M32 - b % M32)) % M32

/-- The timing fields of struct drm_display_mode used by this driver
(the spec's OutputMode). -/
structure drm_display_mode where
  hdisplay : Nat
  hsync_start : Nat
  hsync_end : Nat
  htotal : Nat
  vdisplay : Nat
  vsync_start : Nat
  vsync_end : Nat
  vtotal : Nat
  clock : Nat
deriving DecidableEq

/-- Symbolic offsets of the LCD controller registers touched by the driver
(the JZ_REG_LCD_* constants). -/
inductive LcdReg
  | VSYNC
  | HSYNC
  | VAT
  | DAH
  | DAV
  | PS
  | CLS
  | SPL
  | REV
  | CTRL
  | IPUR
  | STATE
  | OSDC
  | OSDCTRL
  | DA0
  | DA1
  | CFG
deriving DecidableEq

/-- A register-interface side effect: a plain 32-bit write, or a
read-modify-write of the bits selected by a mask. -/
inductive RegAction
  | write (r : LcdReg) (v : Nat)
  | update_bits (r : LcdReg) (mask v : Nat)
deriving DecidableEq

/-- Modelled from the spec: field offset in the paired vertical-sync register.
The register map header (ingenic-drm.h) is not under src/; the pulse-register
convention of spec section 4.1, (edge << 16) | (edge + 1), fixes the 16-bit
packing with the second field of each pair at bit 16. -/
def JZ_LCD_VSYNC_VPS_OFFSET : Nat := 16

/-- Modelled from the spec: low-field offset of the vertical-sync register
(header not under src/). -/
def JZ_LCD_VSYNC_VPE_OFFSET : Nat := 0

/-- Modelled from the spec: high-field offset of the horizontal-sync register
(header not under src/). -/
def JZ_LCD_HSYNC_HPS_OFFSET : Nat := 16

/-- Modelled from the spec: low-field offset of the horizontal-sync register
(header not under src/). -/
def JZ_LCD_HSYNC_HPE_OFFSET : Nat := 0

/-- Modelled from the spec: horizontal-total offset in the VAT register
(header not under src/). -/
def JZ_LCD_VAT_HT_OFFSET : Nat := 16

/-- Modelled from the spec: vertical-total offset in the VAT register
(header not under src/). -/
def JZ_LCD_VAT_VT_OFFSET : Nat := 0

/-- Modelled from the spec: horizontal-data-start offset in the DAH register
(header not under src/). -/
def JZ_LCD_DAH_HDS_OFFSET : Nat := 16

/-- Modelled from the spec: horizontal-data-end offset in the DAH register
(header not under src/). -/
def JZ_LCD_DAH_HDE_OFFSET : Nat := 0

/-- Modelled from the spec: vertical-data-start offset in the DAV register
(header not under src/). -/
def JZ_LCD_DAV_VDS_OFFSET : Nat := 16

/-- Modelled from the spec: vertical-data-end offset in the DAV register
(header not under src/). -/
def JZ_LCD_DAV_VDE_OFFSET : Nat := 0

/-- Modelled from the spec: the output-FIFO-underrun-protection control bit of
spec section 4.1 (header not under src/; exact bit position immaterial to the
claims, a single control bit). -/
def JZ_LCD_CTRL_OFUP : Nat := 65536

/-- Modelled from the spec: the maximum-burst-length control bits of spec
section 4.1 (header not under src/; exact position immaterial to the claims). -/
def JZ_LCD_CTRL_BURST_16 : Nat := 805306368

/-- Modelled from the spec: the IPU-underrun-threshold enable bit (header not
under src/; a single high control bit). -/
def JZ_LCD_IPUR_IPUREN : Nat := 2147483648

/-- Modelled from the spec: bit position of the interrupt-underrun-threshold
field (header not under src/). -/
def JZ_LCD_IPUR_IPUR_LSB : Nat := 0

/-- Modelled from the spec: the controller-disable request bit of the control
register (header not under src/; a single bit). -/
def JZ_LCD_CTRL_DISABLE : Nat := 16

/-- Modelled from the spec: the disabled-status bit of the status register
polled by the disable transition (header not under src/; a single bit). -/
def JZ_LCD_STATE_DISABLED : Nat := 1

/-- Modelled from the spec: the end-of-frame interrupt status bit, bit 5 of the
status register (header not under src/; a single bit, position immaterial). -/
def JZ_LCD_STATE_EOF_IRQ : Nat := 32

/-- Modelled from the spec: the end-of-frame interrupt-request bit of the DMA
descriptor command word (header not under src/; a single high bit outside the
transfer-length field). -/
def JZ_LCD_CMD_EOF_IRQ : Nat := 1073741824

/-- The derived timing values computed by ingenic_drm_crtc_update_timings
(lines 146-156), in C unsigned-int arithmetic. -/
structure Timings where
  vpe : Nat
  vds : Nat
  vde : Nat
  vt : Nat
  hpe : Nat
  hds : Nat
  hde : Nat
  ht : Nat
deriving DecidableEq

/-- The pure computation of ingenic_drm_crtc_update_timings, lines 148-156:
vpe = vsync_end - vsync_start, vds = vtotal - vsync_start, vde = vds + vdisplay,
vt = vde + vsync_start - vdisplay, and the horizontal analogues, all as
C unsigned-int arithmetic. -/
def ingenic_drm_crtc_update_timings_fields (mode : drm_display_mode) : Timings :=
  let vpe := sub32 mode.vsync_end mode.vsync_start
  let vds := sub32 mode.vtotal mode.vsync_start
  let vde := add32 vds mode.vdisplay
  let vt := sub32 (add32 vde mode.vsync_start) mode.vdisplay
  let hpe := sub32 mode.hsync_end mode.hsync_start
  let hds := sub32 mode.htotal mode.hsync_start
  let hde := add32 hds mode.hdisplay
  let ht := sub32 (add32 hde mode.hsync_start) mode.hdisplay
  ⟨vpe, vds, vde, vt, hpe, hds, hde, ht⟩

/-- ingenic_drm_crtc_update_timings (lines 143-190): the full sequence of
register writes the Timing Translator performs.  The C function returns void:
it has no failure path, performs no validity check, and always writes every
register of the sequence. -/
def ingenic_drm_crtc_update_timings (panel_is_sharp : Bool)
    (mode : drm_display_mode) : List RegAction :=
  let t := ingenic_drm_crtc_update_timings_fields mode
  [ RegAction.write LcdReg.VSYNC
      (w32 (0 <<< JZ_LCD_VSYNC_VPS_OFFSET ||| t.vpe <<< JZ_LCD_VSYNC_VPE_OFFSET))
  , RegAction.write LcdReg.HSYNC
      (w32 (0 <<< JZ_LCD_HSYNC_HPS_OFFSET ||| t.hpe <<< JZ_LCD_HSYNC_HPE_OFFSET))
  , RegAction.write LcdReg.VAT
      (w32 (t.ht <<< JZ_LCD_VAT_HT_OFFSET ||| t.vt <<< JZ_LCD_VAT_VT_OFFSET))
  , RegAction.write LcdReg.DAH
      (w32 (t.hds <<< JZ_LCD_DAH_HDS_OFFSET ||| t.hde <<< JZ_LCD_DAH_HDE_OFFSET))
  , RegAction.write LcdReg.DAV
      (w32 (t.vds <<< JZ_LCD_DAV_VDS_OFFSET ||| t.vde <<< JZ_LCD_DAV_VDE_OFFSET)) ]
  ++ (if panel_is_sharp then
      [ RegAction.write LcdReg.PS (w32 (t.hde <<< 16 ||| (t.hde + 1)))
      , RegAction.write LcdReg.CLS (w32 (t.hde <<< 16 ||| (t.hde + 1)))
      , RegAction.write LcdReg.SPL (w32 (t.hpe <<< 16 ||| (t.hpe + 1)))
      , RegAction.write LcdReg.REV (w32 (mode.htotal <<< 16)) ]
    else [])
  ++ [ RegAction.update_bits LcdReg.CTRL
        (JZ_LCD_CTRL_OFUP ||| JZ_LCD_CTRL_BURST_16)
        (JZ_LCD_CTRL_OFUP ||| JZ_LCD_CTRL_BURST_16)
  , RegAction.write LcdReg.IPUR
      (w32 (JZ_LCD_IPUR_IPUREN |||
        (w32 (t.ht * t.vpe) / 3) <<< JZ_LCD_IPUR_IPUR_LSB)) ]

/-- Modelled from the spec: validity of an OutputMode (spec sections 3, 4.1
and 8).  The mode-validation code is not under src/.  Per section 4.1 a mode is
invalid when a derived timing interval is zero or negative, so a valid mode has
positive active size, front porch and sync pulse, with the sync pulse ending
inside the total, and its fields fit the 16-bit register range. -/
def drm_display_mode.valid (m : drm_display_mode) : Prop :=
  0 < m.hdisplay ∧ m.hdisplay < m.hsync_start ∧ m.hsync_start < m.hsync_end ∧
    m.hsync_end ≤ m.htotal ∧ m.htotal < 65536 ∧
  0 < m.vdisplay ∧ m.vdisplay < m.vsync_start ∧ m.vsync_start < m.vsync_end ∧
    m.vsync_end ≤ m.vtotal ∧ m.vtotal < 65536

instance (m : drm_display_mode) : Decidable m.valid := by
  unfold drm_display_mode.valid
  infer_instance

/-- Per-SoC capability record (struct jz_soc_info, lines 45-49). -/
structure jz_soc_info where
  needs_dev_clk : Bool
  has_osd : Bool
  max_width : Nat
  max_height : Nat
deriving DecidableEq

/-- The jz4740 SoC: single-plane hardware, no overlay capability (lines 1032-1037). -/
def jz4740_soc_info : jz_soc_info :=
  { needs_dev_clk := true, has_osd := false, max_width := 800, max_height := 600 }

/-- The jz4725b SoC: overlay-capable hardware (lines 1039-1044). -/
def jz4725b_soc_info : jz_soc_info :=
  { needs_dev_clk := false, has_osd := true, max_width := 800, max_height := 600 }

/-- The jz4770 SoC: overlay-capable hardware (lines 1046-1051). -/
def jz4770_soc_info : jz_soc_info :=
  { needs_dev_clk := false, has_osd := true, max_width := 1280, max_height := 720 }

/-- The fields of struct drm_crtc_state that the driver reads or writes: the
proposed mode, the adjusted-mode pixel clock in kHz, the three flags whose
disjunction makes a transaction a modeset, the no-vblank mark, and whether the
transaction carries a completion notification (state->event). -/
structure drm_crtc_state where
  mode : drm_display_mode
  adjusted_mode_clock : Nat
  mode_changed : Bool
  active_changed : Bool
  connectors_changed : Bool
  no_vblank : Bool
  event : Bool
deriving DecidableEq

/-- Modelled from the spec: the DRM core predicate drm_atomic_crtc_needs_modeset
(not under src/), deciding whether a transaction is a modeset (spec section 3,
CommitTransaction): true when the mode, the enable state, or the connector
routing changed. -/
def drm_atomic_crtc_needs_modeset (s : drm_crtc_state) : Bool :=
  s.mode_changed || s.active_changed || s.connectors_changed

/-- The outcome of an atomic-check step: acceptance carrying the possibly
updated state, or rejection with a negative error code. -/
inductive CheckResult (α : Type)
  | ok (s : α)
  | error (code : Int)
deriving DecidableEq

/-- The Linux EINVAL error number; the driver rejects with -EINVAL. -/
def EINVAL : Int := 22

/-- The Linux ETIMEDOUT error number, returned by an expired poll. -/
def ETIMEDOUT : Int := 110

/-- The transaction state seen by the CRTC-level commit check: the CRTC state
plus the would-be-committed framebuffer presence of the three planes.  f1 is
the DRM primary plane, f0 the DRM overlay plane; ipu_fb is meaningful only when
the IPU plane exists. -/
structure AtomicState where
  crtc : drm_crtc_state
  f1_fb : Bool
  f0_fb : Bool
  ipu_fb : Bool
deriving DecidableEq

/-- ingenic_drm_crtc_atomic_check (lines 192-234).  ipu_plane says whether the
optional IPU plane is registered (priv->ipu_plane); rounded_rate is the result
of clk_round_rate, an external collaborator, negative on failure.  Order of the
guards follows the source: early success when no modeset is needed, then the
maximum-geometry check, the clock check, and - only on OSD hardware - the
f1/IPU exclusion and the all-planes-disabled no-vblank mark. -/
def ingenic_drm_crtc_atomic_check (soc : jz_soc_info) (ipu_plane : Bool)
    (rounded_rate : Int) (s : AtomicState) : CheckResult AtomicState :=
  if drm_atomic_crtc_needs_modeset s.crtc = false then CheckResult.ok s
  else if s.crtc.mode.hdisplay > soc.max_width ∨
      s.crtc.mode.vdisplay > soc.max_height then CheckResult.error (-EINVAL)
  else if rounded_rate < 0 then CheckResult.error rounded_rate
  else if soc.has_osd then
    if ipu_plane = true ∧ s.f1_fb = true ∧ s.ipu_fb = true then
      CheckResult.error (-EINVAL)
    else if s.f1_fb = false ∧ s.f0_fb = false ∧
        (ipu_plane = false ∨ s.ipu_fb = false) then
      CheckResult.ok { s with crtc := { s.crtc with no_vblank := true } }
    else CheckResult.ok s
  else CheckResult.ok s

/-- The fields of struct drm_plane_state that the driver reads: framebuffer
presence, CRTC binding, destination rectangle (crtc_x/y/w/h), source rectangle
in 16.16 fixed point (src_x/y/w/h), and the framebuffer pixel format (fourcc,
meaningful when fb is present). -/
structure drm_plane_state where
  fb : Bool
  crtc : Bool
  crtc_x : Int
  crtc_y : Int
  crtc_w : Nat
  crtc_h : Nat
  src_x : Nat
  src_y : Nat
  src_w : Nat
  src_h : Nat
  format : Nat
deriving DecidableEq

/-- ingenic_drm_plane_atomic_check (lines 277-320).  old_state is plane->state
(the committed state), new_state the proposed one.  helper_ret is the result of
drm_atomic_helper_check_plane_state, an external collaborator (0 on success);
crtc_state_in_atomic models drm_atomic_get_existing_crtc_state returning
non-NULL.  The function returns the CRTC state, with mode_changed set when the
OSD-hardware modeset condition of lines 310-317 holds.  Note line 301: on
non-OSD hardware only src_x is compared with zero - src_y is not checked. -/
def ingenic_drm_plane_atomic_check (soc : jz_soc_info) (helper_ret : Int)
    (crtc_state_in_atomic : Bool) (old_state new_state : drm_plane_state)
    (cs : drm_crtc_state) : CheckResult drm_crtc_state :=
  if new_state.crtc = false ∧ old_state.crtc = false then CheckResult.ok cs
  else if crtc_state_in_atomic = false then CheckResult.error (-EINVAL)
  else if helper_ret ≠ 0 then CheckResult.error helper_ret
  else if soc.has_osd = false ∧
      (new_state.src_x ≠ 0 ∨
       new_state.src_w >>> 16 ≠ new_state.crtc_w ∨
       new_state.src_h >>> 16 ≠ new_state.crtc_h) then
    CheckResult.error (-EINVAL)
  else if soc.has_osd = true ∧
      (old_state.fb = false ∨ new_state.fb = false ∨
       old_state.crtc_x ≠ new_state.crtc_x ∨
       old_state.crtc_y ≠ new_state.crtc_y ∨
       old_state.crtc_w ≠ new_state.crtc_w ∨
       old_state.crtc_h ≠ new_state.crtc_h ∨
       old_state.format ≠ new_state.format) then
    CheckResult.ok { cs with mode_changed := true }
  else CheckResult.ok cs

/-- The side effects of the flush phase, in program order: register actions,
a pixel-clock rate change, and the event-lock-protected notification step. -/
inductive FlushAction
  | reg (a : RegAction)
  | clk_set_rate (hz : Nat)
  | lock
  | arm_vblank_event
  | send_vblank_event
  | unlock
deriving DecidableEq

/-- True for the actions that program hardware state: register accesses and
pixel-clock rate changes. -/
def FlushAction.isProgramming : FlushAction → Bool
  | FlushAction.reg _ => true
  | FlushAction.clk_set_rate _ => true
  | _ => false

/-- True for the two ways a completion notification is produced: armed against
the next vertical blank, or delivered immediately. -/
def FlushAction.isNotification : FlushAction → Bool
  | FlushAction.arm_vblank_event => true
  | FlushAction.send_vblank_event => true
  | _ => false

/-- ingenic_drm_crtc_atomic_flush (lines 252-275).  When a modeset is in
effect, invoke the Timing Translator and then apply the pixel clock rate
(adjusted clock kHz times 1000).  Then, if the transaction carries an event,
consume it and - inside the event-lock scope - arm it against the next vblank
when drm_crtc_vblank_get succeeds (vblank_get_ok), or send it immediately
otherwise.  Returns the action trace and the resulting CRTC state. -/
def ingenic_drm_crtc_atomic_flush (panel_is_sharp vblank_get_ok : Bool)
    (s : drm_crtc_state) : List FlushAction × drm_crtc_state :=
  let timing_acts :=
    if drm_atomic_crtc_needs_modeset s then
      (ingenic_drm_crtc_update_timings panel_is_sharp s.mode).map FlushAction.reg
        ++ [FlushAction.clk_set_rate (s.adjusted_mode_clock * 1000)]
    else []
  if s.event then
    (timing_acts ++
      [FlushAction.lock,
       if vblank_get_ok then FlushAction.arm_vblank_event
       else FlushAction.send_vblank_event,
       FlushAction.unlock],
     { s with event := false })
  else (timing_acts, s)

/-- The condition polled by ingenic_drm_crtc_atomic_disable (line 139): the
disabled-status bit is set in the value read from the status register. -/
def pollCond (v : Nat) : Bool := v &&& JZ_LCD_STATE_DISABLED != 0

/-- Modelled from the spec: the poll primitive used by the disable transition
(spec section 5, a poll of a disabled-status bit governed by a timeout
argument).  The regmap_read_poll_timeout macro (include/linux/regmap.h) is not
under src/ but expands textually into ingenic_drm_crtc_atomic_disable; its loop
re-reads the register, exits with 0 when the condition holds, and exits with
-ETIMEDOUT only when the timeout argument is nonzero and the elapsed time
exceeds it (a timeout argument of 0 never expires, since the expiry test is
conjoined with timeout_us being nonzero).  reads n is the n-th value read,
elapsed_us n the elapsed time observed after the n-th read.  fuel bounds how
many iterations are examined: none means the loop was still running after fuel
iterations. -/
def regmap_read_poll_timeout_run (timeout_us : Nat) (elapsed_us reads : Nat → Nat) :
    Nat → Nat → Option Int
  | 0, _ => none
  | fuel + 1, i =>
    if pollCond (reads i) then some 0
    else if timeout_us ≠ 0 ∧ elapsed_us i > timeout_us then
      some (if pollCond (reads (i + 1)) then 0 else -ETIMEDOUT)
    else regmap_read_poll_timeout_run timeout_us elapsed_us reads fuel (i + 1)

/-- The observable steps of the disable transition. -/
inductive DisableAction
  | vblank_off
  | reg (a : RegAction)
deriving DecidableEq

/-- ingenic_drm_crtc_atomic_disable (lines 127-141): turn vblank delivery off,
set the DISABLE request bit, then poll the disabled-status bit with sleep
argument 1000 us and timeout argument 0.  The C function returns void, so the
poll result (second component) is computed and then discarded: no failure is
reported to the caller. -/
def ingenic_drm_crtc_atomic_disable (elapsed_us reads : Nat → Nat) (fuel : Nat) :
    List DisableAction × Option Int :=
  ([DisableAction.vblank_off,
    DisableAction.reg
      (RegAction.update_bits LcdReg.CTRL JZ_LCD_CTRL_DISABLE JZ_LCD_CTRL_DISABLE)],
   regmap_read_poll_timeout_run 0 elapsed_us reads fuel 0)

/-- What the interrupt handler does with one status value. -/
structure IrqOutcome where
  writeback : Nat
  vblank_handled : Bool
  irq_handled : Bool
deriving DecidableEq

/-- ingenic_drm_irq_handler (lines 555-569): read the status register, write it
back with the end-of-frame bit cleared and every other bit preserved
(regmap_update_bits with the EOF mask and value 0), call drm_crtc_handle_vblank
exactly when the end-of-frame bit was set in the value read, and always return
IRQ_HANDLED.  state is the value read from the status register. -/
def ingenic_drm_irq_handler (state : Nat) : IrqOutcome :=
  { writeback := state &&& (M32 - 1 - JZ_LCD_STATE_EOF_IRQ)
  , vblank_handled := state &&& JZ_LCD_STATE_EOF_IRQ != 0
  , irq_handled := true }

/-- struct ingenic_dma_hwdesc (lines 38-43): one 16-byte hardware DMA
descriptor - next-descriptor physical address, buffer physical address,
identifying tag, and command word. -/
structure ingenic_dma_hwdesc where
  next : Nat
  addr : Nat
  id : Nat
  cmd : Nat
deriving DecidableEq

/-- The descriptor-related state owned by the controller: the two descriptor
records and their physical addresses (dma_hwdesc and dma_hwdesc_phys,
lines 61-62). -/
structure DescriptorState where
  hwdesc0 : ingenic_dma_hwdesc
  hwdesc1 : ingenic_dma_hwdesc
  phys0 : Nat
  phys1 : Nat
deriving DecidableEq

/-- Descriptor initialization performed by ingenic_drm_bind (lines 804-820):
each descriptor's next pointer is set to its own physical address and its id to
the fixed tag (0xdeafbead for index 0, 0xdeadbabe for index 1).  The addr and
cmd words are whatever the fresh allocation contained (parameters a0 c0 a1 c1);
the code does not initialize them. -/
def ingenic_drm_bind_init_descs (phys0 phys1 a0 c0 a1 c1 : Nat) : DescriptorState :=
  { hwdesc0 := { next := phys0, addr := a0, id := 3736059565, cmd := c0 }
  , hwdesc1 := { next := phys1, addr := a1, id := 3735927486, cmd := c1 }
  , phys0 := phys0
  , phys1 := phys1 }

/-- Modelled from the spec: bytes per pixel of the three supported formats
(spec section 4.3, one of three fixed formats; the DRM format table is not
under src/).  XRGB8888 is 4 bytes per pixel, RGB565 and XRGB1555 are 2. -/
def formatCpp (fourcc : Nat) : Nat :=
  if fourcc = 875713112 then 4
  else if fourcc = 909199186 then 2
  else if fourcc = 892424792 then 2
  else 0

/-- ingenic_drm_plane_atomic_update (lines 423-457), restricted to its effect
on descriptor memory.  When the new plane state carries a framebuffer, the
descriptor selected by the hardware index (0 on non-OSD hardware; on OSD
hardware 1 for the primary plane and 0 otherwise, line 444-447) gets its buffer
address replaced and its command word set to the transfer length in words with
the end-of-frame interrupt-request bit or-ed in (lines 449-451).  Nothing else
in descriptor memory is touched; with no framebuffer the function leaves the
descriptors alone.  buf_addr is the buffer physical address resolved by the
external buffer provider. -/
def ingenic_drm_plane_atomic_update (has_osd plane_is_primary : Bool)
    (st : drm_plane_state) (buf_addr : Nat) (s : DescriptorState) :
    DescriptorState :=
  if st.fb then
    let width := st.src_w >>> 16
    let height := st.src_h >>> 16
    let cpp := formatCpp st.format
    let cmd := w32 (w32 (width * height * cpp) / 4) ||| JZ_LCD_CMD_EOF_IRQ
    if has_osd && plane_is_primary then
      { s with hwdesc1 := { s.hwdesc1 with addr := w32 buf_addr, cmd := cmd } }
    else
      { s with hwdesc0 := { s.hwdesc0 with addr := w32 buf_addr, cmd := cmd } }
  else s

/-- The Descriptor Ring Manager invariant of the spec (section 3,
HardwareDescriptor): each descriptor's next pointer equals its own physical
address and its identifying tag keeps the value set at initialization. -/
def DescInvariant (s : DescriptorState) : Prop :=
  s.hwdesc0.next = s.phys0 ∧ s.hwdesc1.next = s.phys1 ∧
  s.hwdesc0.id = 3736059565 ∧ s.hwdesc1.id = 3735927486

instance (s : DescriptorState) : Decidable (DescInvariant s) := by
  unfold DescInvariant
  infer_instance

/-- A standard 640x480 at 60 Hz mode, used as a concrete valid OutputMode. -/
def vga640x480 : drm_display_mode :=
  { hdisplay := 640, hsync_start := 656, hsync_end := 752, htotal := 800,
    vdisplay := 480, vsync_start := 490, vsync_end := 492, vtotal := 525,
    clock := 25175 }

/-- Claim C1: for every OutputMode accepted as valid, the Timing Translator's
derived fields of lines 148-156 satisfy the strict ordering
vt > vde > vds ≥ 0 and ht > hde > hds ≥ 0. -/
theorem claim_C1_timing_order (m : drm_display_mode) (hv : m.valid) :
    ((ingenic_drm_crtc_update_timings_fields m).vt >
        (ingenic_drm_crtc_update_timings_fields m).vde ∧
      (ingenic_drm_crtc_update_timings_fields m).vde >
        (ingenic_drm_crtc_update_timings_fields m).vds ∧
      0 ≤ (ingenic_drm_crtc_update_timings_fields m).vds) ∧
    ((ingenic_drm_crtc_update_timings_fields m).ht >
        (ingenic_drm_crtc_update_timings_fields m).hde ∧
      (ingenic_drm_crtc_update_timings_fields m).hde >
        (ingenic_drm_crtc_update_timings_fields m).hds ∧
      0 ≤ (ingenic_drm_crtc_update_timings_fields m).hds) := by
  obtain ⟨h1, h2, h3, h4, h5, h6, h7, h8, h9, h10⟩ := hv
  dsimp only [ingenic_drm_crtc_update_timings_fields]
  simp only [sub32, add32, M32]
  omega

/-- Witness for claim C1: the 640x480 mode is valid and its derived fields are
strictly ordered. -/
theorem claim_C1_witness :
    vga640x480.valid ∧
    (((ingenic_drm_crtc_update_timings_fields vga640x480).vt >
        (ingenic_drm_crtc_update_timings_fields vga640x480).vde ∧
      (ingenic_drm_crtc_update_timings_fields vga640x480).vde >
        (ingenic_drm_crtc_update_timings_fields vga640x480).vds ∧
      0 ≤ (ingenic_drm_crtc_update_timings_fields vga640x480).vds) ∧
    ((ingenic_drm_crtc_update_timings_fields vga640x480).ht >
        (ingenic_drm_crtc_update_timings_fields vga640x480).hde ∧
      (ingenic_drm_crtc_update_timings_fields vga640x480).hde >
        (ingenic_drm_crtc_update_timings_fields vga640x480).hds ∧
      0 ≤ (ingenic_drm_crtc_update_timings_fields vga640x480).hds)) :=
  ⟨by decide, claim_C1_timing_order vga640x480 (by decide)⟩

/-- A mode with invalid geometry: its vertical sync pulse ends before it
starts, so the derived vertical pulse length is negative (wrapping in the
unsigned arithmetic of line 148). -/
def c5_bad_mode : drm_display_mode :=
  { hdisplay := 640, hsync_start := 656, hsync_end := 752, htotal := 800,
    vdisplay := 480, vsync_start := 490, vsync_end := 485, vtotal := 525,
    clock := 25175 }

/-- Claim C5 counterexample: on a mode with invalid geometry the Timing
Translator does not fail - the C function returns void, checks nothing, and
performs its full sequence of seven register writes anyway.  This refutes the
claim that it fails exactly when the mode geometry is invalid. -/
theorem claim_C5_counterexample :
    ¬ c5_bad_mode.valid ∧
    (ingenic_drm_crtc_update_timings false c5_bad_mode).length = 7 := by
  constructor
  · decide
  · decide

/-- Claim C5 (amended): the Timing Translator cannot fail and performs no
validity check: for every mode, valid or not, it unconditionally performs its
full register-write sequence (seven writes, eleven with the special-TFT panel
registers), and it has no error return at all (the C function returns void). -/
theorem claim_C5_amended_total (panel_is_sharp : Bool) (m : drm_display_mode) :
    (ingenic_drm_crtc_update_timings panel_is_sharp m).length =
      if panel_is_sharp then 11 else 7 := by
  cases panel_is_sharp <;> simp [ingenic_drm_crtc_update_timings]

/-- A plane state with no buffer and no CRTC binding (a disabled plane). -/
def plane_absent : drm_plane_state :=
  { fb := false, crtc := false, crtc_x := 0, crtc_y := 0, crtc_w := 0,
    crtc_h := 0, src_x := 0, src_y := 0, src_w := 0, src_h := 0, format := 0 }

/-- A full-screen 800x600 RGB565 plane state with zero source offset and
matching source and destination sizes. -/
def plane_fullscreen : drm_plane_state :=
  { fb := true, crtc := true, crtc_x := 0, crtc_y := 0, crtc_w := 800,
    crtc_h := 600, src_x := 0, src_y := 0, src_w := 52428800,
    src_h := 39321600, format := 909199186 }

/-- A baseline CRTC state with no modeset flags set. -/
def fast_crtc_state : drm_crtc_state :=
  { mode := vga640x480, adjusted_mode_clock := 25175, mode_changed := false,
    active_changed := false, connectors_changed := false, no_vblank := false,
    event := false }

/-- A CRTC state proposing the 640x480 mode with a mode change (a modeset
transaction), carrying no completion notification. -/
def modeset_crtc_state : drm_crtc_state :=
  { mode := vga640x480, adjusted_mode_clock := 25175, mode_changed := true,
    active_changed := false, connectors_changed := false, no_vblank := false,
    event := false }

/-- A transaction on OSD hardware in which the DRM overlay plane (f0) and the
IPU plane both end with a live buffer while the primary plane (f1) is empty. -/
def c2_state : AtomicState :=
  { crtc := modeset_crtc_state, f1_fb := false, f0_fb := true, ipu_fb := true }

/-- Claim C2 counterexample: a transaction in which the Overlay plane (f0,
registered DRM_PLANE_TYPE_OVERLAY at line 859) and the Image-Processing plane
would both end with a live buffer passes the commit check end to end - the
exclusion of line 222 tests f1, the DRM primary plane, against the IPU plane,
not the overlay plane.  Concretely: the f0 plane check accepts the overlay
gaining its full-screen buffer (flagging the modeset), the f1 plane check
accepts the primary staying absent, and the CRTC check then accepts the
resulting f0-plus-IPU transaction with the state unchanged, so nothing in this
driver rejects it. -/
theorem claim_C2_counterexample :
    c2_state.f0_fb = true ∧ c2_state.ipu_fb = true ∧ c2_state.f1_fb = false ∧
    ingenic_drm_plane_atomic_check jz4770_soc_info 0 true plane_absent
      plane_fullscreen fast_crtc_state = CheckResult.ok modeset_crtc_state ∧
    ingenic_drm_plane_atomic_check jz4770_soc_info 0 true plane_absent
      plane_absent fast_crtc_state = CheckResult.ok fast_crtc_state ∧
    ingenic_drm_crtc_atomic_check jz4770_soc_info true 25175000 c2_state =
      CheckResult.ok c2_state := by
  refine ⟨rfl, rfl, rfl, ?_, ?_, ?_⟩ <;> decide

/-- Claim C2 (amended): the mutual exclusion holds between the Primary plane
(f1) and the Image-Processing plane: every modeset transaction that passes the
geometry and clock guards and in which f1 and the IPU plane would both end with
a live buffer is rejected with -EINVAL, state unchanged. -/
theorem claim_C2_amended (soc : jz_soc_info) (rate : Int) (s : AtomicState)
    (hosd : soc.has_osd = true)
    (hm : drm_atomic_crtc_needs_modeset s.crtc = true)
    (hw : s.crtc.mode.hdisplay ≤ soc.max_width)
    (hh : s.crtc.mode.vdisplay ≤ soc.max_height)
    (hr : 0 ≤ rate) (hf1 : s.f1_fb = true) (hipu : s.ipu_fb = true) :
    ingenic_drm_crtc_atomic_check soc true rate s = CheckResult.error (-EINVAL) := by
  have hg1 : ¬(s.crtc.mode.hdisplay > soc.max_width ∨
      s.crtc.mode.vdisplay > soc.max_height) := by omega
  have hg2 : ¬(rate < 0) := by omega
  simp [ingenic_drm_crtc_atomic_check, hm, hosd, hf1, hipu, hg1, hg2]

/-- A modeset transaction in which the primary plane (f1) and the IPU plane
both end with a live buffer. -/
def c2w_state : AtomicState :=
  { crtc := modeset_crtc_state, f1_fb := true, f0_fb := false, ipu_fb := true }

/-- Witness for the amended claim C2: a concrete f1-plus-IPU transaction is
rejected with -EINVAL. -/
theorem claim_C2_witness :
    c2w_state.f1_fb = true ∧ c2w_state.ipu_fb = true ∧
    ingenic_drm_crtc_atomic_check jz4770_soc_info true 25175000 c2w_state =
      CheckResult.error (-EINVAL) :=
  ⟨rfl, rfl,
    claim_C2_amended jz4770_soc_info 25175000 c2w_state rfl rfl (by decide)
      (by decide) (by decide) rfl rfl⟩

/-- A modeset transaction in which every plane ends with no buffer. -/
def c4_state : AtomicState :=
  { crtc := modeset_crtc_state, f1_fb := false, f0_fb := false, ipu_fb := false }

/-- Claim C4 counterexample: on single-plane hardware (jz4740, no OSD) a
modeset transaction in which every plane ends with no buffer is accepted
without being marked as producing no frame-completion signal - no_vblank stays
false, because lines 227-231 only run inside the has_osd branch. -/
theorem claim_C4_counterexample :
    c4_state.f1_fb = false ∧ c4_state.f0_fb = false ∧ c4_state.ipu_fb = false ∧
    drm_atomic_crtc_needs_modeset c4_state.crtc = true ∧
    ingenic_drm_crtc_atomic_check jz4740_soc_info false 25175000 c4_state =
      CheckResult.ok c4_state ∧
    c4_state.crtc.no_vblank = false := by
  refine ⟨rfl, rfl, rfl, rfl, ?_, rfl⟩
  decide

/-- Helper: a list of register actions lifted into the flush trace contains no
notification action. -/
theorem filter_notification_map_reg (l : List RegAction) :
    (l.map FlushAction.reg).filter FlushAction.isNotification = [] := by
  induction l with
  | nil => rfl
  | cons a t ih => simp [FlushAction.isNotification, ih]

/-- Claim C4 (amended): on OSD-capable hardware, every modeset transaction that
passes the geometry and clock guards and in which every plane ends with no
buffer is accepted with the no-vblank mark set; and the flush phase emits
exactly one completion notification (armed against vblank or delivered
immediately) when the transaction carries one, and none otherwise. -/
theorem claim_C4_amended (soc : jz_soc_info) (ipu_plane : Bool) (rate : Int)
    (s : AtomicState) (panel_is_sharp vblank_get_ok : Bool) (cs : drm_crtc_state)
    (hosd : soc.has_osd = true)
    (hm : drm_atomic_crtc_needs_modeset s.crtc = true)
    (hw : s.crtc.mode.hdisplay ≤ soc.max_width)
    (hh : s.crtc.mode.vdisplay ≤ soc.max_height)
    (hr : 0 ≤ rate)
    (h1 : s.f1_fb = false) (h0 : s.f0_fb = false)
    (hi : ipu_plane = false ∨ s.ipu_fb = false) :
    ingenic_drm_crtc_atomic_check soc ipu_plane rate s =
      CheckResult.ok { s with crtc := { s.crtc with no_vblank := true } } ∧
    ((ingenic_drm_crtc_atomic_flush panel_is_sharp vblank_get_ok cs).1.filter
        FlushAction.isNotification).length = (if cs.event then 1 else 0) := by
  have hg1 : ¬(s.crtc.mode.hdisplay > soc.max_width ∨
      s.crtc.mode.vdisplay > soc.max_height) := by omega
  have hg2 : ¬(rate < 0) := by omega
  constructor
  · simp [ingenic_drm_crtc_atomic_check, hm, hosd, h1, h0, hi, hg1, hg2]
  · cases hms : drm_atomic_crtc_needs_modeset cs <;> cases he : cs.event <;>
      cases vblank_get_ok <;>
        simp [ingenic_drm_crtc_atomic_flush, hms, he, FlushAction.isNotification,
          filter_notification_map_reg, List.filter_append]

/-- Witness for the amended claim C4: on jz4770 the all-planes-disabled modeset
transaction is accepted with no_vblank set, and a flush of a transaction
without a notification emits none. -/
theorem claim_C4_witness :
    ingenic_drm_crtc_atomic_check jz4770_soc_info false 25175000 c4_state =
      CheckResult.ok { c4_state with
        crtc := { c4_state.crtc with no_vblank := true } } ∧
    ((ingenic_drm_crtc_atomic_flush false true modeset_crtc_state).1.filter
        FlushAction.isNotification).length =
      (if modeset_crtc_state.event then 1 else 0) :=
  claim_C4_amended jz4770_soc_info false 25175000 c4_state false true
    modeset_crtc_state rfl rfl (by decide) (by decide) (by decide) rfl rfl
    (Or.inl rfl)

/-- The plane transitions that the claim says force a full modeset, stated from
the claim's words for comparison with the code's classification: the plane goes
from absent buffer to present, from present to absent, or changes position,
size or format while live. -/
def modesetTransition (old_state new_state : drm_plane_state) : Prop :=
  (old_state.fb = false ∧ new_state.fb = true) ∨
  (old_state.fb = true ∧ new_state.fb = false) ∨
  (old_state.fb = true ∧ new_state.fb = true ∧
    (old_state.crtc_x ≠ new_state.crtc_x ∨ old_state.crtc_y ≠ new_state.crtc_y ∨
     old_state.crtc_w ≠ new_state.crtc_w ∨ old_state.crtc_h ≠ new_state.crtc_h ∨
     old_state.format ≠ new_state.format))

instance (o n : drm_plane_state) : Decidable (modesetTransition o n) := by
  unfold modesetTransition
  infer_instance

/-- Claim C3 counterexample: on single-plane hardware (jz4740, no OSD) a plane
going from absent buffer to present buffer - a transition the claim says must
be classified as requiring a full modeset - passes the plane check without
mode_changed being set, because lines 310-317 only run when the hardware has
OSD capability. -/
theorem claim_C3_counterexample :
    modesetTransition plane_absent plane_fullscreen ∧
    ingenic_drm_plane_atomic_check jz4740_soc_info 0 true plane_absent
      plane_fullscreen fast_crtc_state = CheckResult.ok fast_crtc_state ∧
    fast_crtc_state.mode_changed = false := by
  refine ⟨by decide, ?_, rfl⟩
  decide

/-- Claim C3 (amended): on OSD-capable hardware, a plane check that passes the
external geometry helper classifies the transaction as requiring a full modeset
exactly when the plane goes from absent buffer to present, from present to
absent, or changes position, size or format while live; in particular a plane
that changes nothing is never classified as requiring a modeset.  On
single-plane hardware the plane check never sets the modeset flag.  The
hypotheses tie CRTC binding to buffer presence, the DRM invariant for these
planes. -/
theorem claim_C3_amended (soc : jz_soc_info)
    (old_state new_state : drm_plane_state) (cs : drm_crtc_state)
    (hosd : soc.has_osd = true)
    (hoc : old_state.crtc = old_state.fb) (hnc : new_state.crtc = new_state.fb)
    (hmc : cs.mode_changed = false) :
    ∃ cs', ingenic_drm_plane_atomic_check soc 0 true old_state new_state cs =
        CheckResult.ok cs' ∧
      (cs'.mode_changed = true ↔ modesetTransition old_state new_state) := by
  unfold ingenic_drm_plane_atomic_check modesetTransition
  rw [hoc, hnc]
  cases ho : old_state.fb with
  | false =>
    cases hn : new_state.fb with
    | false =>
      refine ⟨cs, by simp, ?_⟩
      simp [hmc]
    | true =>
      refine ⟨{ cs with mode_changed := true }, by simp [hosd], ?_⟩
      simp
  | true =>
    cases hn : new_state.fb with
    | false =>
      refine ⟨{ cs with mode_changed := true }, by simp [hosd], ?_⟩
      simp
    | true =>
      by_cases hP : (old_state.crtc_x ≠ new_state.crtc_x ∨
          old_state.crtc_y ≠ new_state.crtc_y ∨
          old_state.crtc_w ≠ new_state.crtc_w ∨
          old_state.crtc_h ≠ new_state.crtc_h ∨
          old_state.format ≠ new_state.format)
      · refine ⟨{ cs with mode_changed := true }, by simp [hosd, hP], ?_⟩
        simp [hP]
      · refine ⟨cs, by simp [hosd, hP], ?_⟩
        simp [hmc, hP]

/-- Witness for the amended claim C3: on jz4770 an absent-to-present plane
transition is classified as a modeset. -/
theorem claim_C3_witness :
    ∃ cs', ingenic_drm_plane_atomic_check jz4770_soc_info 0 true plane_absent
        plane_fullscreen fast_crtc_state = CheckResult.ok cs' ∧
      (cs'.mode_changed = true ↔ modesetTransition plane_absent plane_fullscreen) :=
  claim_C3_amended jz4770_soc_info plane_absent plane_fullscreen fast_crtc_state
    rfl rfl rfl rfl

/-- A plane state identical to the full-screen one except for a nonzero
vertical source offset (src_y is one line, in 16.16 fixed point). -/
def plane_src_y_offset : drm_plane_state :=
  { plane_fullscreen with src_y := 65536 }

/-- Claim C7 counterexample: on single-plane hardware a plane update whose
source has a nonzero vertical offset (src_y) but zero horizontal offset and
matching sizes is accepted - line 301 compares only src_x with zero, so not
every nonzero source offset is rejected. -/
theorem claim_C7_counterexample :
    plane_src_y_offset.src_y ≠ 0 ∧
    ingenic_drm_plane_atomic_check jz4740_soc_info 0 true plane_absent
      plane_src_y_offset fast_crtc_state = CheckResult.ok fast_crtc_state := by
  refine ⟨by decide, ?_⟩
  decide

/-- Claim C7 (amended): on single-plane hardware (no overlay capability) a
plane update bound to the CRTC that passes the external geometry helper is
rejected with -EINVAL exactly when its source has a nonzero horizontal offset
(src_x) or its source size does not match the destination size; the vertical
source offset is not checked.  A full-screen update with zero src_x and
matching sizes is accepted. -/
theorem claim_C7_amended (soc : jz_soc_info)
    (old_state new_state : drm_plane_state) (cs : drm_crtc_state)
    (hosd : soc.has_osd = false) (hc : new_state.crtc = true) :
    ((new_state.src_x ≠ 0 ∨ new_state.src_w >>> 16 ≠ new_state.crtc_w ∨
      new_state.src_h >>> 16 ≠ new_state.crtc_h) →
      ingenic_drm_plane_atomic_check soc 0 true old_state new_state cs =
        CheckResult.error (-EINVAL)) ∧
    (new_state.src_x = 0 ∧ new_state.src_w >>> 16 = new_state.crtc_w ∧
      new_state.src_h >>> 16 = new_state.crtc_h →
      ingenic_drm_plane_atomic_check soc 0 true old_state new_state cs =
        CheckResult.ok cs) := by
  constructor
  · intro hgeom
    simp [ingenic_drm_plane_atomic_check, hosd, hc, hgeom]
  · intro hgeom
    obtain ⟨g1, g2, g3⟩ := hgeom
    simp [ingenic_drm_plane_atomic_check, hosd, hc, g1, g2, g3]

/-- Witness for the amended claim C7: the full-screen update with zero offset
and matching sizes is accepted on jz4740. -/
theorem claim_C7_witness :
    ingenic_drm_plane_atomic_check jz4740_soc_info 0 true plane_absent
      plane_fullscreen fast_crtc_state = CheckResult.ok fast_crtc_state :=
  (claim_C7_amended jz4740_soc_info plane_absent plane_fullscreen fast_crtc_state
    rfl rfl).2 ⟨rfl, by decide, by decide⟩

/-- Helper: the poll loop with the driver's timeout argument of 0 never reaches
the expiry branch; on a status stream whose disabled bit is never set it is
still running after any number of iterations. -/
theorem poll_zero_reads_none (elapsed_us : Nat → Nat) (fuel i : Nat) :
    regmap_read_poll_timeout_run 0 elapsed_us (fun _ => 0) fuel i = none := by
  induction fuel generalizing i with
  | zero => rfl
  | succ n ih =>
    rw [regmap_read_poll_timeout_run]
    simp [pollCond, JZ_LCD_STATE_DISABLED, ih]

/-- The disable-path poll diverges on a hardware that never reports disabled:
for every amount of fuel, the poll inside ingenic_drm_crtc_atomic_disable is
still running.  There is no bounded timeout: the timeout argument passed at
line 140 is 0, which never expires. -/
def disablePollDiverges : Prop :=
  ∀ (elapsed_us : Nat → Nat) (fuel : Nat),
    (ingenic_drm_crtc_atomic_disable elapsed_us (fun _ => 0) fuel).2 = none

/-- Claim C6 counterexample: the disable transition does not poll with a
bounded timeout - on a status stream in which the disabled bit never reads as
set, the poll runs forever (no iteration count suffices), however much time
elapses, because the timeout argument is 0.  Moreover the surrounding C
function returns void, so no failure could be reported to the caller. -/
theorem claim_C6_counterexample : disablePollDiverges := by
  intro elapsed_us fuel
  exact poll_zero_reads_none elapsed_us fuel 0

/-- Claim C6 (amended): the disable transition polls the disabled-status bit
with no timeout bound (the timeout argument at line 140 is 0, which never
expires): whenever the poll exits, it exits successfully with result 0 because
the disabled bit was finally read as set - it can never terminate with a
timeout failure, and its result is discarded anyway since the disable path
returns void. -/
theorem claim_C6_amended (elapsed_us reads : Nat → Nat) (fuel i : Nat) (r : Int)
    (h : regmap_read_poll_timeout_run 0 elapsed_us reads fuel i = some r) :
    r = 0 ∧ ∃ k, i ≤ k ∧ pollCond (reads k) = true := by
  induction fuel generalizing i with
  | zero => exact absurd h (by rw [regmap_read_poll_timeout_run]; simp)
  | succ n ih =>
    rw [regmap_read_poll_timeout_run] at h
    by_cases hc : pollCond (reads i) = true
    · rw [if_pos hc] at h
      injection h with h0
      exact ⟨h0.symm, i, Nat.le_refl i, hc⟩
    · rw [if_neg hc] at h
      have hto : ¬((0:Nat) ≠ 0 ∧ elapsed_us i > 0) := by simp
      rw [if_neg hto] at h
      obtain ⟨h0, k, hk, hck⟩ := ih (i + 1) h
      exact ⟨h0, k, Nat.le_of_succ_le hk, hck⟩

/-- Witness for the amended claim C6: a stream whose first read has the
disabled bit set makes the poll exit with result 0. -/
theorem claim_C6_witness :
    regmap_read_poll_timeout_run 0 (fun _ => 0) (fun _ => 1) 1 0 = some 0 ∧
    ((0:Int) = 0 ∧ ∃ k, 0 ≤ k ∧ pollCond ((fun _ => (1:Nat)) k) = true) :=
  ⟨by decide, claim_C6_amended (fun _ => 0) (fun _ => 1) 1 0 0 (by decide)⟩

/-- Helper: the bit pattern of the writeback mask used by the interrupt
handler - all 32 bits set except bit 5, the end-of-frame bit. -/
theorem irq_writeback_mask_testBit (i : Nat) :
    (4294967263 : Nat).testBit i = (decide (i < 32) && !(decide (i = 5))) := by
  have h32 : (4294967263 : Nat) = (2 ^ 32 - 1) ^^^ 2 ^ 5 := by decide
  rw [h32, Nat.testBit_xor, Nat.testBit_two_pow_sub_one, Nat.testBit_two_pow]
  by_cases h5 : i = 5
  · subst h5
    simp
  · have h5' : decide (5 = i) = false := decide_eq_false (fun h => h5 h.symm)
    rw [h5']
    simp [h5]

/-- Helper: masking with a single bit is nonzero exactly when that bit is set. -/
theorem land_single_bit_ne_zero (x n : Nat) :
    (x &&& 2 ^ n != 0) = x.testBit n := by
  cases h : x.testBit n
  · have hz : x &&& 2 ^ n = 0 := by
      apply Nat.eq_of_testBit_eq
      intro i
      rw [Nat.testBit_land, Nat.testBit_two_pow, Nat.zero_testBit]
      by_cases hi : n = i
      · subst hi
        simp [h]
      · simp [hi]
    simp [hz]
  · have hnz : x &&& 2 ^ n ≠ 0 := by
      intro hz
      have hb := congrArg (fun y => y.testBit n) hz
      simp [Nat.testBit_land, Nat.testBit_two_pow, h] at hb
    simp [hnz]

/-- Claim C8: for every status value read on interrupt the handler completes
(returns IRQ_HANDLED), writes the status back with the end-of-frame bit (bit 5)
cleared and every other bit preserved, and notifies the vertical-blank
subsystem exactly when the end-of-frame bit was set in the status it read;
unexpected status bits are never propagated as an error. -/
theorem claim_C8_irq_handler (state : Nat) (hs : state < M32) :
    (∀ i : Nat, (ingenic_drm_irq_handler state).writeback.testBit i = true ↔
      (state.testBit i = true ∧ i ≠ 5)) ∧
    ((ingenic_drm_irq_handler state).vblank_handled = true ↔
      state.testBit 5 = true) ∧
    (ingenic_drm_irq_handler state).irq_handled = true := by
  refine ⟨?_, ?_, rfl⟩
  · intro i
    show (state &&& (M32 - 1 - JZ_LCD_STATE_EOF_IRQ)).testBit i = true ↔ _
    have hm : M32 - 1 - JZ_LCD_STATE_EOF_IRQ = 4294967263 := rfl
    rw [hm, Nat.testBit_land, irq_writeback_mask_testBit]
    by_cases hlt : i < 32
    · by_cases h5 : i = 5
      · subst h5
        simp
      · simp [hlt, h5]
    · have hi : state < 2 ^ i := by
        have hm2 : M32 = 2 ^ 32 := rfl
        exact lt_of_lt_of_le (hm2 ▸ hs)
          (Nat.pow_le_pow_right (by norm_num) (by omega))
      have hsb : state.testBit i = false := Nat.testBit_eq_false_of_lt hi
      simp [hlt, hsb]
  · show (state &&& JZ_LCD_STATE_EOF_IRQ != 0) = true ↔ state.testBit 5 = true
    have he : JZ_LCD_STATE_EOF_IRQ = 2 ^ 5 := rfl
    rw [he, land_single_bit_ne_zero]

/-- Witness for claim C8: the handler outcome on the concrete status value 37
(end-of-frame bit set plus two unexpected bits). -/
theorem claim_C8_witness :
    (∀ i : Nat, (ingenic_drm_irq_handler 37).writeback.testBit i = true ↔
      ((37:Nat).testBit i = true ∧ i ≠ 5)) ∧
    ((ingenic_drm_irq_handler 37).vblank_handled = true ↔
      (37:Nat).testBit 5 = true) ∧
    (ingenic_drm_irq_handler 37).irq_handled = true :=
  claim_C8_irq_handler 37 (by norm_num [M32])

/-- Claim C9: a flush with no modeset in effect performs no register write and
no pixel-clock change, emitting only the event-lock-bracketed notification
step; and regardless of modeset, a transaction carrying a completion
notification has it armed against the next vertical blank (or sent immediately
when the vertical blank reference cannot be taken) strictly between the lock
and unlock of the scope shared with the interrupt handler, and the event is
consumed exactly once. -/
theorem claim_C9_flush (panel_is_sharp vblank_get_ok : Bool) (s : drm_crtc_state) :
    (drm_atomic_crtc_needs_modeset s = false → s.event = true →
      (ingenic_drm_crtc_atomic_flush panel_is_sharp vblank_get_ok s).1 =
        [FlushAction.lock,
         if vblank_get_ok then FlushAction.arm_vblank_event
         else FlushAction.send_vblank_event,
         FlushAction.unlock]) ∧
    (s.event = true →
      ∃ pre, (ingenic_drm_crtc_atomic_flush panel_is_sharp vblank_get_ok s).1 =
          pre ++ [FlushAction.lock,
            if vblank_get_ok then FlushAction.arm_vblank_event
            else FlushAction.send_vblank_event,
            FlushAction.unlock] ∧
        pre.filter FlushAction.isNotification = [] ∧
        (ingenic_drm_crtc_atomic_flush panel_is_sharp vblank_get_ok s).2.event =
          false) := by
  constructor
  · intro hfast hev
    simp [ingenic_drm_crtc_atomic_flush, hfast, hev]
  · intro hev
    cases hms : drm_atomic_crtc_needs_modeset s
    · exact ⟨[], by simp [ingenic_drm_crtc_atomic_flush, hms, hev], rfl,
        by simp [ingenic_drm_crtc_atomic_flush, hms, hev]⟩
    · refine ⟨(ingenic_drm_crtc_update_timings panel_is_sharp s.mode).map
          FlushAction.reg ++
          [FlushAction.clk_set_rate (s.adjusted_mode_clock * 1000)], ?_, ?_, ?_⟩
      · simp [ingenic_drm_crtc_atomic_flush, hms, hev]
      · simp [List.filter_append, filter_notification_map_reg,
          FlushAction.isNotification]
      · simp [ingenic_drm_crtc_atomic_flush, hms, hev]

/-- A fast-update CRTC state carrying a completion notification. -/
def c9_state : drm_crtc_state :=
  { mode := vga640x480, adjusted_mode_clock := 25175, mode_changed := false,
    active_changed := false, connectors_changed := false, no_vblank := false,
    event := true }

/-- Witness for claim C9: a fast update carrying an event, with the vblank
reference available, emits exactly the lock-arm-unlock trace. -/
theorem claim_C9_witness :
    (ingenic_drm_crtc_atomic_flush false true c9_state).1 =
      [FlushAction.lock,
       if true then FlushAction.arm_vblank_event
       else FlushAction.send_vblank_event,
       FlushAction.unlock] :=
  (claim_C9_flush false true c9_state).1 rfl rfl

/-- Claim C10: every plane update preserves the descriptor invariant - each
descriptor's next pointer stays equal to its own physical address and its tag
stays at the initialization value - and mutates nothing but the buffer-address
and command fields of the one descriptor selected by the plane's hardware
index, while the plane-index-to-physical-address mapping never changes; and
bind establishes the invariant for any physical placement. -/
theorem claim_C10_descriptors (has_osd plane_is_primary : Bool)
    (st : drm_plane_state) (buf_addr : Nat) (s : DescriptorState)
    (hInv : DescInvariant s) :
    DescInvariant
      (ingenic_drm_plane_atomic_update has_osd plane_is_primary st buf_addr s) ∧
    (ingenic_drm_plane_atomic_update has_osd plane_is_primary st buf_addr
        s).phys0 = s.phys0 ∧
    (ingenic_drm_plane_atomic_update has_osd plane_is_primary st buf_addr
        s).phys1 = s.phys1 ∧
    (ingenic_drm_plane_atomic_update has_osd plane_is_primary st buf_addr
        s).hwdesc0.next = s.hwdesc0.next ∧
    (ingenic_drm_plane_atomic_update has_osd plane_is_primary st buf_addr
        s).hwdesc0.id = s.hwdesc0.id ∧
    (ingenic_drm_plane_atomic_update has_osd plane_is_primary st buf_addr
        s).hwdesc1.next = s.hwdesc1.next ∧
    (ingenic_drm_plane_atomic_update has_osd plane_is_primary st buf_addr
        s).hwdesc1.id = s.hwdesc1.id ∧
    ((has_osd && plane_is_primary) = true →
      (ingenic_drm_plane_atomic_update has_osd plane_is_primary st buf_addr
        s).hwdesc0 = s.hwdesc0) ∧
    ((has_osd && plane_is_primary) = false →
      (ingenic_drm_plane_atomic_update has_osd plane_is_primary st buf_addr
        s).hwdesc1 = s.hwdesc1) ∧
    (∀ p0 p1 a0 c0 a1 c1,
      DescInvariant (ingenic_drm_bind_init_descs p0 p1 a0 c0 a1 c1)) := by
  obtain ⟨h1, h2, h3, h4⟩ := hInv
  unfold ingenic_drm_plane_atomic_update
  cases hfb : st.fb <;> cases hsel : has_osd && plane_is_primary <;>
    simp [hfb, hsel, DescInvariant, ingenic_drm_bind_init_descs, h1, h2, h3, h4]

/-- Witness for claim C10: updating the primary plane on OSD hardware from a
freshly initialized descriptor state keeps the invariant and the untouched
descriptor intact. -/
theorem claim_C10_witness :
    DescInvariant (ingenic_drm_plane_atomic_update true true plane_fullscreen
      4096 (ingenic_drm_bind_init_descs 256 272 0 0 0 0)) :=
  (claim_C10_descriptors true true plane_fullscreen 4096
    (ingenic_drm_bind_init_descs 256 272 0 0 0 0) (by decide)).1
